import Mathlib

/-!
Shallow embedding of the game session state machine and scoring engine of
`app.py` / `prompts.py` (a murder-mystery deduction game server).

External collaborators (the text-generation model) are modelled as explicit
inputs: each call site receives the collaborator's outcome as an argument
(`Except Unit String` for a raw text call that may raise, or an `Option` of a
parsed record for call sites that JSON-parse the reply).  Python floats are
modelled as `ℚ`; `round(x, 1)` as `round1` below.
-/

namespace CodeOfTruth

/-- `MAX_QUESTIONS = 50` from `app.py`. -/
def MAX_QUESTIONS : Nat := 50

/-- `MAX_HINTS = 3` from `app.py`. -/
def MAX_HINTS : Nat := 3

/-- One NPC record of a scenario (`npcs` entries in `app.py` / `prompts.py`). -/
structure NPC where
  name : String
  role : String
  personality : String
  secret : String
  alibi : String
  relationship : String
  deriving DecidableEq, Repr

/-- A parsed scenario object (`scenario_data` in `generate_scenario`). -/
structure Scenario where
  title : String
  scenario : String
  victim : String
  location : String
  time : String
  culprit : String
  npcs : List NPC
  key_evidence : List String
  deriving DecidableEq, Repr

/-- One entry of `game['questions']`: a question record or a hint record. -/
structure QuestionRecord where
  npc_name : String
  question : String
  answer : String
  quality_score : Int
  reasoning : String
  timestamp : String
  deriving DecidableEq, Repr

/-- The dictionary returned by `calculate_final_score`. -/
structure ScoreInfo where
  total_score : ℚ
  quality_score : ℚ
  count_score : ℚ
  grade : String
  question_count : Nat
  avg_quality : ℚ
  deriving DecidableEq, Repr

/-- One in-memory game session (`games[session_id]` in `app.py`). -/
structure Game where
  session_id : String
  scenario : Scenario
  culprit : String
  npcs : List NPC
  questions : List QuestionRecord
  hints_used : Nat
  start_time : String
  is_finished : Bool
  end_time : Option String
  final_score : Option ScoreInfo
  deriving DecidableEq, Repr

/-- Python's `round(x, 1)`: round to one decimal place, modelled as
nearest-integer rounding of `10 * x` (exact ties, which float `round`
resolves to even, are modelled upward; no claim in scope depends on an
exact tie). -/
def round1 (x : ℚ) : ℚ := ((⌊10 * x + 1/2⌋ : ℤ) : ℚ) / 10

/-- The `count_score` branch of `calculate_final_score` in `app.py`:
50 for at most 10 questions, linear decay of 2.5 per question up to 20,
then steeper decay of 5 per question floored at 0. -/
def count_score_fn (question_count : Nat) : ℚ :=
  if question_count ≤ 10 then 50
  else if question_count ≤ 20 then 50 - ((question_count : ℚ) - 10) * (5/2)
  else max 0 (25 - ((question_count : ℚ) - 20) * 5)

/-- The grade thresholds of `calculate_final_score` applied to the
(unrounded) total score. -/
def grade_of (total_score : ℚ) : String :=
  if total_score ≥ 90 then "S"
  else if total_score ≥ 80 then "A"
  else if total_score ≥ 70 then "B"
  else if total_score ≥ 60 then "C"
  else "D"

/-- `calculate_final_score(question_count, avg_quality_score)` from `app.py`. -/
def calculate_final_score (question_count : Nat) (avg_quality_score : ℚ) :
    ScoreInfo :=
  let quality_score : ℚ := 50 * (avg_quality_score / 100)
  let count_score : ℚ := count_score_fn question_count
  let total_score : ℚ := quality_score + count_score
  { total_score := round1 total_score
    quality_score := round1 quality_score
    count_score := round1 count_score
    grade := grade_of total_score
    question_count := question_count
    avg_quality := round1 avg_quality_score }

/-- The parsed JSON object a successful question-evaluation call yields in
`evaluate_question_quality`: the `score` and `reasoning` fields may each be
absent (`result.get` supplies a default).  A collaborator call that raises,
returns unparsable text, or returns a non-numeric score is modelled as the
`none` outcome at the call site. -/
structure EvalParsed where
  score : Option Int
  reasoning : Option String
  deriving DecidableEq, Repr

/-- `evaluate_question_quality` from `app.py`, with the collaborator call and
JSON parse modelled as the input `res` (`none` = any exception or parse
failure).  Returns the `{score, reasoning}` pair. -/
def evaluate_question_quality (res : Option EvalParsed) : Int × String :=
  match res with
  | none => (50, "평가 중 오류 발생")
  | some r => (max 1 (min 100 (r.score.getD 50)), r.reasoning.getD "평가 완료")

/-- `generate_npc_response` from `app.py`: the collaborator call is the input
`res` (`Except.error` = the call raised); on failure a fixed apology string
is returned. -/
def generate_npc_response (res : Except Unit String) : String :=
  match res with
  | .ok text => text.trim
  | .error _ => "죄송합니다. 지금은 대답하기 어렵습니다."

/-- `DEFAULT_SCENARIO` from `prompts.py` (the hardcoded fallback scenario). -/
def DEFAULT_SCENARIO : Scenario :=
  { title := "저택의 비밀"
    scenario := "유명 사업가가 자신의 저택에서 살해당했습니다. 사건 당시 저택에는 3명이 있었습니다."
    victim := "김재벌"
    location := "강남구 고급 저택"
    time := "2025년 10월 15일 밤 11시"
    culprit := "이비서"
    npcs :=
      [ { name := "이비서", role := "용의자", personality := "냉정하고 계산적",
          secret := "피해자가 횡령 증거를 발견했고, 이를 숨기기 위해 살해했다",
          alibi := "서재에서 업무를 보고 있었다고 주장",
          relationship := "10년간 비서로 근무" },
        { name := "박자녀", role := "용의자", personality := "감정적이고 충동적",
          secret := "아버지와 유산 문제로 큰 다툼이 있었다",
          alibi := "자신의 방에서 음악을 듣고 있었다고 주장",
          relationship := "피해자의 딸" },
        { name := "최요리사", role := "목격자", personality := "소심하고 관찰력이 좋음",
          secret := "주방에서 이비서가 서재로 들어가는 것을 목격했지만 두려워서 말하지 못하고 있다",
          alibi := "주방에서 다음 날 식사를 준비하고 있었다",
          relationship := "5년간 요리사로 근무" } ]
    key_evidence :=
      [ "서재 문손잡이에서 발견된 지문",
        "피해자의 노트북에 남겨진 횡령 증거",
        "CCTV에 찍힌 복도의 그림자" ] }

/-- The culprit-repair step of `generate_scenario`: if the parsed culprit is
not among the NPC names, `npc_names[0]` is substituted; on an empty NPC list
that subscript raises `IndexError`, which the surrounding `except` treats as
a failed attempt (`none`). -/
def repair_culprit (s : Scenario) : Option Scenario :=
  if s.culprit ∈ s.npcs.map (fun npc => npc.name) then some s
  else
    match s.npcs.map (fun npc => npc.name) with
    | [] => none
    | n :: _ => some { s with culprit := n }

/-- The outcome of one attempt of `generate_scenario`'s retry loop:
the collaborator call plus JSON parse (`none` = exception or parse failure),
followed by the culprit repair. -/
def scenario_attempt (a : Option Scenario) : Option Scenario :=
  a.bind repair_culprit

/-- The retry loop body of `generate_scenario`: take the first attempt that
yields a scenario, else fall through to `DEFAULT_SCENARIO`. -/
def generate_scenario_from : List (Option Scenario) → Scenario
  | [] => DEFAULT_SCENARIO
  | a :: rest =>
    match scenario_attempt a with
    | some s => s
    | none => generate_scenario_from rest

/-- `generate_scenario` from `app.py`: `max_retries = 3` attempts against the
collaborator (each attempt's post-parse outcome is one list entry), then the
hardcoded `DEFAULT_SCENARIO`. -/
def generate_scenario (attempts : List (Option Scenario)) : Scenario :=
  generate_scenario_from (attempts.take 3)

/-- Outcome of the `/ask` handler, session-lookup and input validation
aside: a rejection (error response) or an accepted question with its
evaluation. -/
inductive AskOutcome where
  | rejected (msg : String)
  | answered (answer : String) (quality_score : Int) (reasoning : String)
      (total_questions : Nat)
  deriving DecidableEq, Repr

/-- `ask_question` from `app.py` (the per-session logic of `/ask`): reject if
the game is finished or `len(questions) >= MAX_QUESTIONS` or the NPC name is
unknown; otherwise evaluate the question, generate the NPC response, and
append one record.  `evalRes` and `npcRes` are the two collaborator
outcomes, `ts` the timestamp. -/
def ask_question (g : Game) (npc_name question : String)
    (evalRes : Option EvalParsed) (npcRes : Except Unit String) (ts : String) :
    Game × AskOutcome :=
  if g.is_finished then
    (g, .rejected "이미 종료된 게임입니다.")
  else if MAX_QUESTIONS ≤ g.questions.length then
    (g, .rejected "최대 질문 횟수(50회)에 도달했습니다. 이제 범인을 지목해주세요.")
  else
    match g.npcs.find? (fun npc => npc.name == npc_name) with
    | none => (g, .rejected "존재하지 않는 NPC입니다.")
    | some _ =>
      let evaluation := evaluate_question_quality evalRes
      let answer := generate_npc_response npcRes
      let record : QuestionRecord :=
        { npc_name := npc_name, question := question, answer := answer,
          quality_score := evaluation.1, reasoning := evaluation.2,
          timestamp := ts }
      let g' := { g with questions := g.questions ++ [record] }
      (g', .answered answer evaluation.1 evaluation.2 g'.questions.length)

/-- Outcome of the `/accuse` handler, session-lookup and input validation
aside. -/
inductive AccuseOutcome where
  | rejected (msg : String)
  | correct (score_info : ScoreInfo)
  | wrong
  deriving DecidableEq, Repr

/-- The average quality fed to `calculate_final_score` on a correct
accusation: `sum(q['quality_score'] for q in questions) / len(questions)`. -/
def avg_quality_of (questions : List QuestionRecord) : ℚ :=
  ((questions.map (fun q => (q.quality_score : ℚ))).sum) / questions.length

/-- `accuse_culprit` from `app.py` (the per-session logic of `/accuse`):
reject if finished; on a correct accusation with zero questions reject;
otherwise finish the game with the computed score; a wrong accusation leaves
the game active. -/
def accuse_culprit (g : Game) (suspect_name : String) (now : String) :
    Game × AccuseOutcome :=
  if g.is_finished then
    (g, .rejected "이미 종료된 게임입니다.")
  else if suspect_name == g.culprit then
    if g.questions.length = 0 then
      (g, .rejected "최소 1개의 질문을 해야 합니다.")
    else
      let score_info :=
        calculate_final_score g.questions.length (avg_quality_of g.questions)
      ({ g with is_finished := true, end_time := some now,
                final_score := some score_info },
       .correct score_info)
  else
    (g, .wrong)

/-- Outcome of the `/hint` handler, session-lookup aside: a rejection, a
generation failure (the collaborator raised and the outer `except` answers
with an error), or a provided hint. -/
inductive HintOutcome where
  | rejected (msg : String)
  | failed
  | provided (hint : String) (hints_remaining : Nat)
  deriving DecidableEq, Repr

/-- `get_hint` from `app.py` (the per-session logic of `/hint`): reject once
`hints_used >= MAX_HINTS` (no check of `is_finished`); then call the
collaborator (`gen`) — if it raises, no mutation happens; on success append a
`SYSTEM` record with `quality_score = 0` and increment `hints_used`. -/
def get_hint (g : Game) (gen : Except Unit String) (ts : String) :
    Game × HintOutcome :=
  if MAX_HINTS ≤ g.hints_used then
    (g, .rejected "최대 힌트 횟수(3회)에 도달했습니다. 더 이상 힌트를 받을 수 없습니다.")
  else
    match gen with
    | .error _ => (g, .failed)
    | .ok text =>
      let hint := text.trim
      let record : QuestionRecord :=
        { npc_name := "SYSTEM", question := "[힌트 요청]", answer := hint,
          quality_score := 0, reasoning := "힌트 사용", timestamp := ts }
      let g' := { g with questions := g.questions ++ [record],
                         hints_used := g.hints_used + 1 }
      (g', .provided hint (MAX_HINTS - g'.hints_used))

/-- The fresh session built by `/start` in `app.py`. -/
def initial_game (session_id : String) (scenario : Scenario)
    (start_time : String) : Game :=
  { session_id := session_id
    scenario := scenario
    culprit := scenario.culprit
    npcs := scenario.npcs
    questions := []
    hints_used := 0
    start_time := start_time
    is_finished := false
    end_time := none
    final_score := none }

/-- One externally triggered action on a session: an `/ask`, `/hint` or
`/accuse` request, with arbitrary inputs and collaborator behaviour. -/
inductive Step : Game → Game → Prop
  | ask (g : Game) (npc_name question : String) (evalRes : Option EvalParsed)
      (npcRes : Except Unit String) (ts : String) :
      Step g (ask_question g npc_name question evalRes npcRes ts).1
  | hint (g : Game) (gen : Except Unit String) (ts : String) :
      Step g (get_hint g gen ts).1
  | accuse (g : Game) (suspect_name now : String) :
      Step g (accuse_culprit g suspect_name now).1

/-- A session state reachable from some fresh session by player actions. -/
inductive Reachable : Game → Prop
  | init (session_id : String) (scenario : Scenario) (start_time : String) :
      Reachable (initial_game session_id scenario start_time)
  | step {g g' : Game} : Reachable g → Step g g' → Reachable g'

/-- The culprit-in-roster invariant: the scenario's culprit is one of its
NPC names. -/
def culprit_ok (s : Scenario) : Prop :=
  s.culprit ∈ s.npcs.map (fun npc => npc.name)

instance (s : Scenario) : Decidable (culprit_ok s) := by
  unfold culprit_ok
  infer_instance

/-- The number of non-hint question records of a session (hint records are
the ones tagged `SYSTEM`); vocabulary of the specification, used to compare
the spec's question cap with the code's. -/
def non_hint_count (questions : List QuestionRecord) : Nat :=
  (questions.filter fun q => q.npc_name != "SYSTEM").length

/-- A concrete accepted question record scored 80, addressed to an NPC of
the fallback scenario. -/
def q80 : QuestionRecord :=
  { npc_name := "이비서", question := "사건 당시 어디에 있었나요?",
    answer := "서재에서 업무를 보고 있었습니다.", quality_score := 80,
    reasoning := "구체적인 질문", timestamp := "t1" }

/-- A concrete hint record as `get_hint` appends it. -/
def hint_rec : QuestionRecord :=
  { npc_name := "SYSTEM", question := "[힌트 요청]", answer := "서재를 살펴보세요.",
    quality_score := 0, reasoning := "힌트 사용", timestamp := "t2" }

/-- A session holding one real question scored 80 and one hint record. -/
def g2 : Game :=
  { initial_game "sid" DEFAULT_SCENARIO "t0" with
      questions := [q80, hint_rec], hints_used := 1 }

/-- A session holding 47 real questions and 3 hint records: 50 records in
total while only 47 are non-hint questions. -/
def g50 : Game :=
  { initial_game "sid" DEFAULT_SCENARIO "t0" with
      questions := List.replicate 47 q80 ++ List.replicate 3 hint_rec,
      hints_used := 3 }

/-- A finished session with no hints used yet (for exercising the absence of
a finished-state check in `get_hint`). -/
def g_done : Game :=
  { initial_game "sid" DEFAULT_SCENARIO "t0" with
      questions := [q80], is_finished := true, end_time := some "t9" }

/-- A parsed scenario whose culprit is not among its NPC names (exercises
the culprit-repair path of `generate_scenario`). -/
def bad_scenario : Scenario :=
  { DEFAULT_SCENARIO with culprit := "존재하지않는사람" }

/-! Helper lemmas (shared). -/

lemma round1_mono {x y : ℚ} (h : x ≤ y) : round1 x ≤ round1 y := by
  unfold round1
  have hf : (⌊10 * x + 1/2⌋ : ℤ) ≤ ⌊10 * y + 1/2⌋ :=
    Int.floor_mono (by linarith)
  have hf' : ((⌊10 * x + 1/2⌋ : ℤ) : ℚ) ≤ ((⌊10 * y + 1/2⌋ : ℤ) : ℚ) := by
    exact_mod_cast hf
  linarith

lemma count_score_fn_anti {m n : ℕ} (h : m ≤ n) :
    count_score_fn n ≤ count_score_fn m := by
  have hmn : (m : ℚ) ≤ (n : ℚ) := by exact_mod_cast h
  unfold count_score_fn
  split_ifs with hn1 hm1 hm2 hn2 hm3 hm4 hm5 hm6
  · linarith
  · exfalso; omega
  · exfalso; omega
  · have h10 : (10 : ℚ) < (n : ℚ) := by exact_mod_cast Nat.lt_of_not_le hn1
    linarith
  · linarith
  · exfalso; omega
  · have h20 : (20 : ℚ) < (n : ℚ) := by exact_mod_cast Nat.lt_of_not_le hn2
    apply max_le <;> linarith
  · have h20 : (20 : ℚ) < (n : ℚ) := by exact_mod_cast Nat.lt_of_not_le hn2
    have h20m : (m : ℚ) ≤ 20 := by exact_mod_cast hm6
    apply max_le <;> linarith
  · exact max_le_max le_rfl (by linarith)

lemma quality_component_eq (n : ℕ) (q : ℚ) :
    (calculate_final_score n q).quality_score = round1 (50 * (q / 100)) := rfl

lemma count_component_eq (n : ℕ) (q : ℚ) :
    (calculate_final_score n q).count_score = round1 (count_score_fn n) := rfl

lemma ask_finished_frame (g : Game) (npc_name question : String)
    (evalRes : Option EvalParsed) (npcRes : Except Unit String) (ts : String)
    (h : g.is_finished = true) :
    ask_question g npc_name question evalRes npcRes ts =
      (g, .rejected "이미 종료된 게임입니다.") := by
  unfold ask_question
  simp [h]

lemma accuse_finished_frame (g : Game) (suspect_name now : String)
    (h : g.is_finished = true) :
    accuse_culprit g suspect_name now = (g, .rejected "이미 종료된 게임입니다.") := by
  unfold accuse_culprit
  simp [h]

lemma ask_fst_hints_used (g : Game) (npc_name question : String)
    (evalRes : Option EvalParsed) (npcRes : Except Unit String) (ts : String) :
    (ask_question g npc_name question evalRes npcRes ts).1.hints_used =
      g.hints_used := by
  unfold ask_question
  split_ifs with h1 h2
  · rfl
  · rfl
  · rcases hf : g.npcs.find? (fun npc => npc.name == npc_name) with _ | i <;>
      simp [hf]

lemma ask_fst_is_finished (g : Game) (npc_name question : String)
    (evalRes : Option EvalParsed) (npcRes : Except Unit String) (ts : String) :
    (ask_question g npc_name question evalRes npcRes ts).1.is_finished =
      g.is_finished := by
  unfold ask_question
  split_ifs with h1 h2
  · rfl
  · rfl
  · rcases hf : g.npcs.find? (fun npc => npc.name == npc_name) with _ | i <;>
      simp [hf]

lemma hint_fst_is_finished (g : Game) (gen : Except Unit String) (ts : String) :
    (get_hint g gen ts).1.is_finished = g.is_finished := by
  unfold get_hint
  split_ifs with h1
  · rfl
  · rcases gen with e | t <;> simp

lemma hint_fst_hints_le (g : Game) (gen : Except Unit String) (ts : String)
    (h : g.hints_used ≤ MAX_HINTS) :
    (get_hint g gen ts).1.hints_used ≤ MAX_HINTS := by
  unfold get_hint
  split_ifs with h1
  · exact h
  · rcases gen with e | t
    · exact h
    · simp only
      omega

lemma accuse_fst_hints_used (g : Game) (suspect_name now : String) :
    (accuse_culprit g suspect_name now).1.hints_used = g.hints_used := by
  unfold accuse_culprit
  split_ifs <;> rfl

lemma accuse_fst_finished_mono (g : Game) (suspect_name now : String)
    (h : g.is_finished = true) :
    (accuse_culprit g suspect_name now).1.is_finished = true := by
  rw [accuse_finished_frame g suspect_name now h]
  exact h

lemma step_hints_le {g g' : Game} (s : Step g g')
    (h : g.hints_used ≤ MAX_HINTS) : g'.hints_used ≤ MAX_HINTS := by
  cases s with
  | ask npc_name question evalRes npcRes ts =>
    rw [ask_fst_hints_used]; exact h
  | hint gen ts => exact hint_fst_hints_le g gen ts h
  | accuse suspect_name now =>
    rw [accuse_fst_hints_used]; exact h

lemma reachable_hints_le {g : Game} (r : Reachable g) :
    g.hints_used ≤ MAX_HINTS := by
  induction r with
  | init session_id scenario start_time =>
    simp [initial_game, MAX_HINTS]
  | step _ s ih => exact step_hints_le s ih

lemma step_finished_mono {g g' : Game} (s : Step g g')
    (h : g.is_finished = true) : g'.is_finished = true := by
  cases s with
  | ask npc_name question evalRes npcRes ts =>
    rw [ask_fst_is_finished]; exact h
  | hint gen ts => rw [hint_fst_is_finished]; exact h
  | accuse suspect_name now => exact accuse_fst_finished_mono g suspect_name now h

lemma repair_culprit_ok {s s' : Scenario} (h : repair_culprit s = some s') :
    culprit_ok s' := by
  unfold repair_culprit at h
  split_ifs at h with hmem
  · cases h
    exact hmem
  · rcases hn : s.npcs.map (fun npc => npc.name) with _ | ⟨n, rest⟩ <;>
      rw [hn] at h
    · simp at h
    · simp only [Option.some.injEq] at h
      subst h
      show n ∈ s.npcs.map (fun npc => npc.name)
      rw [hn]
      exact List.mem_cons_self n rest

lemma default_scenario_culprit_ok : culprit_ok DEFAULT_SCENARIO := by
  unfold culprit_ok DEFAULT_SCENARIO
  simp

lemma generate_scenario_from_ok (l : List (Option Scenario)) :
    culprit_ok (generate_scenario_from l) := by
  induction l with
  | nil => exact default_scenario_culprit_ok
  | cons a rest ih =>
    unfold generate_scenario_from
    rcases ha : scenario_attempt a with _ | s'
    · simpa [ha] using ih
    · simp only [ha]
      rcases a with _ | s
      · simp [scenario_attempt] at ha
      · exact repair_culprit_ok (by simpa [scenario_attempt] using ha)

lemma generate_scenario_from_all_fail (l : List (Option Scenario))
    (h : l.all fun a => (scenario_attempt a).isNone) :
    generate_scenario_from l = DEFAULT_SCENARIO := by
  induction l with
  | nil => rfl
  | cons a rest ih =>
    rw [List.all_cons, Bool.and_eq_true] at h
    unfold generate_scenario_from
    rcases hs : scenario_attempt a with _ | s'
    · exact ih h.2
    · rw [hs] at h
      simp at h

lemma generate_scenario_all_fail (attempts : List (Option Scenario))
    (h : (attempts.take 3).all fun a => (scenario_attempt a).isNone) :
    generate_scenario attempts = DEFAULT_SCENARIO :=
  generate_scenario_from_all_fail (attempts.take 3) h

/-! Claim theorems. -/

/-- C3: the scoring function satisfies the boundary examples
`score(10, 100) = (50, 50, 100, S)`, `score(20, 80) = (40, 25, 65, C)`,
`score(25, 0) = (0, 0, 0, D)`; and for `question_count ≥ 1` and
`avg_quality ∈ [0, 100]` the total is the quality component
`50 * avg / 100` plus the piecewise count component, rounded to one
decimal place, with grades S/A/B/C/D at thresholds 90/80/70/60 on the
total. -/
theorem calculate_final_score_boundary_spec :
    calculate_final_score 10 100 =
      { total_score := 100, quality_score := 50, count_score := 50,
        grade := "S", question_count := 10, avg_quality := 100 } ∧
    calculate_final_score 20 80 =
      { total_score := 65, quality_score := 40, count_score := 25,
        grade := "C", question_count := 20, avg_quality := 80 } ∧
    calculate_final_score 25 0 =
      { total_score := 0, quality_score := 0, count_score := 0,
        grade := "D", question_count := 25, avg_quality := 0 } ∧
    ∀ (n : ℕ) (q : ℚ), 1 ≤ n → 0 ≤ q → q ≤ 100 →
      (calculate_final_score n q).total_score =
          round1 (50 * (q / 100) + count_score_fn n) ∧
      (calculate_final_score n q).grade =
          (if 50 * (q / 100) + count_score_fn n ≥ 90 then "S"
           else if 50 * (q / 100) + count_score_fn n ≥ 80 then "A"
           else if 50 * (q / 100) + count_score_fn n ≥ 70 then "B"
           else if 50 * (q / 100) + count_score_fn n ≥ 60 then "C"
           else "D") := by
  refine ⟨?_, ?_, ?_, ?_⟩
  · simp only [calculate_final_score, count_score_fn, grade_of, round1,
      ScoreInfo.mk.injEq]
    norm_num
  · simp only [calculate_final_score, count_score_fn, grade_of, round1,
      ScoreInfo.mk.injEq]
    norm_num
  · simp only [calculate_final_score, count_score_fn, grade_of, round1,
      ScoreInfo.mk.injEq]
    norm_num
  · intro n q _ _ _
    exact ⟨rfl, rfl⟩

/-- Witness for C3: the general formula of
`calculate_final_score_boundary_spec` instantiated at `n = 15`,
`avg_quality = 60`. -/
theorem calculate_final_score_boundary_spec_witness :
    (calculate_final_score 15 60).total_score =
      round1 (50 * ((60 : ℚ) / 100) + count_score_fn 15) :=
  (calculate_final_score_boundary_spec.2.2.2 15 60 (by norm_num)
    (by norm_num) (by norm_num)).1

/-- C4: for every fixed average quality, the count component of the score
is non-increasing in the question count (across all piecewise regions),
and for every fixed question count, the quality component is
non-decreasing in the average quality over `[0, 100]`. -/
theorem score_components_monotone :
    (∀ (q : ℚ) (m n : ℕ), 1 ≤ m → m ≤ n →
        (calculate_final_score n q).count_score ≤
          (calculate_final_score m q).count_score) ∧
    (∀ (n : ℕ) (q1 q2 : ℚ), 0 ≤ q1 → q1 ≤ q2 → q2 ≤ 100 →
        (calculate_final_score n q1).quality_score ≤
          (calculate_final_score n q2).quality_score) := by
  constructor
  · intro q m n _ hmn
    rw [count_component_eq, count_component_eq]
    exact round1_mono (count_score_fn_anti hmn)
  · intro n q1 q2 _ h12 _
    rw [quality_component_eq, quality_component_eq]
    exact round1_mono (by linarith)

/-- Witness for C4: both monotonicity statements of
`score_components_monotone` at concrete inputs crossing the piecewise
boundaries. -/
theorem score_components_monotone_witness :
    (calculate_final_score 26 70).count_score ≤
      (calculate_final_score 9 70).count_score ∧
    (calculate_final_score 9 30).quality_score ≤
      (calculate_final_score 9 70).quality_score :=
  ⟨score_components_monotone.1 70 9 26 (by norm_num) (by norm_num),
   score_components_monotone.2 9 30 70 (by norm_num) (by norm_num)
     (by norm_num)⟩

/-- C9: `evaluate_question_quality` is total (never raises) and always
returns a score in `[1, 100]`; a present score is clamped into `[1, 100]`,
a missing score defaults to 50, and any failure yields the fixed fallback
score 50 with the fixed error reasoning string. -/
theorem evaluate_question_quality_spec :
    (∀ res : Option EvalParsed,
        1 ≤ (evaluate_question_quality res).1 ∧
        (evaluate_question_quality res).1 ≤ 100) ∧
    (∀ (r : EvalParsed) (s : Int), r.score = some s →
        (evaluate_question_quality (some r)).1 = max 1 (min 100 s)) ∧
    (∀ r : EvalParsed, r.score = none →
        (evaluate_question_quality (some r)).1 = 50) ∧
    evaluate_question_quality none = (50, "평가 중 오류 발생") := by
  refine ⟨?_, ?_, ?_, rfl⟩
  · intro res
    rcases res with _ | r
    · exact ⟨by norm_num [evaluate_question_quality],
        by norm_num [evaluate_question_quality]⟩
    · refine ⟨le_max_left _ _, ?_⟩
      exact max_le (by norm_num) ((min_le_left _ _))
  · intro r s hs
    simp [evaluate_question_quality, hs]
  · intro r hr
    simp [evaluate_question_quality, hr]

/-- Witness for C9: `evaluate_question_quality_spec` applied to a parsed
reply with out-of-range score 250 (clamped to 100) and to a parsed reply
with a missing score (default 50). -/
theorem evaluate_question_quality_spec_witness :
    (evaluate_question_quality
        (some { score := some 250, reasoning := none })).1 =
      max 1 (min 100 250) ∧
    (evaluate_question_quality
        (some { score := none, reasoning := some "r" })).1 = 50 :=
  ⟨evaluate_question_quality_spec.2.1 _ 250 rfl,
   evaluate_question_quality_spec.2.2.1 _ rfl⟩

/-- C6: on a finished session every subsequent ask or accuse is rejected
with the session unchanged (so `questions`, `hints_used` and `final_score`
are untouched), and `is_finished` never reverts to `false` under any
action. -/
theorem finished_terminal_spec :
    (∀ (g : Game) (npc_name question : String) (evalRes : Option EvalParsed)
        (npcRes : Except Unit String) (ts : String), g.is_finished = true →
        ask_question g npc_name question evalRes npcRes ts =
          (g, .rejected "이미 종료된 게임입니다.")) ∧
    (∀ (g : Game) (suspect_name now : String), g.is_finished = true →
        accuse_culprit g suspect_name now =
          (g, .rejected "이미 종료된 게임입니다.")) ∧
    (∀ g g' : Game, Step g g' → g.is_finished = true →
        g'.is_finished = true) :=
  ⟨ask_finished_frame, accuse_finished_frame,
   fun _ _ s h => step_finished_mono s h⟩

/-- Witness for C6: `finished_terminal_spec` applied to the concrete
finished session `g_done`. -/
theorem finished_terminal_spec_witness :
    ask_question g_done "이비서" "누가 범인인가요?" none (Except.ok "모릅니다") "t" =
      (g_done, .rejected "이미 종료된 게임입니다.") ∧
    accuse_culprit g_done "이비서" "t" =
      (g_done, .rejected "이미 종료된 게임입니다.") :=
  ⟨finished_terminal_spec.1 g_done "이비서" "누가 범인인가요?" none
      (Except.ok "모릅니다") "t" rfl,
   finished_terminal_spec.2.1 g_done "이비서" "t" rfl⟩

/-- C7: a correct accusation on a session with zero question records is
rejected with an error and the session is unchanged (not finished, no
`end_time` or `final_score`), and the scoring function is only ever
invoked with `question_count ≥ 1` (every correct-accusation score has
`question_count = len(questions) ≥ 1`). -/
theorem accuse_requires_question_spec :
    (∀ (g : Game) (now : String), g.is_finished = false → g.questions = [] →
        accuse_culprit g g.culprit now =
          (g, .rejected "최소 1개의 질문을 해야 합니다.")) ∧
    (∀ (g : Game) (s now : String) (si : ScoreInfo),
        (accuse_culprit g s now).2 = .correct si →
        1 ≤ g.questions.length ∧ si.question_count = g.questions.length) := by
  constructor
  · intro g now h1 h2
    unfold accuse_culprit
    simp [h1, h2]
  · intro g s now si h
    unfold accuse_culprit at h
    split_ifs at h with h1 h2 h3
    simp only [AccuseOutcome.correct.injEq] at h
    refine ⟨by omega, ?_⟩
    rw [← h]
    rfl

/-- Witness for C7: `accuse_requires_question_spec` applied to a fresh
session (no questions) accusing the true culprit, and to the concrete
correct accusation on `g2`. -/
theorem accuse_requires_question_spec_witness :
    accuse_culprit (initial_game "s0" DEFAULT_SCENARIO "t0")
        (initial_game "s0" DEFAULT_SCENARIO "t0").culprit "t1" =
      (initial_game "s0" DEFAULT_SCENARIO "t0",
        .rejected "최소 1개의 질문을 해야 합니다.") :=
  accuse_requires_question_spec.1 (initial_game "s0" DEFAULT_SCENARIO "t0")
    "t1" rfl rfl

/-- C1 counterexample: in `g50` the session is unfinished and holds only 47
non-hint question records (strictly below `MAX_QUESTIONS = 50`) plus 3 hint
records, and the addressed NPC exists — yet the next ask is rejected with
the question-cap error, because `ask_question` caps `len(questions)`
including hint records.  Hint records do consume ask capacity, refuting the
claim as stated. -/
theorem ask_cap_counterexample :
    g50.is_finished = false ∧
    non_hint_count g50.questions = 47 ∧
    non_hint_count g50.questions < MAX_QUESTIONS ∧
    (g50.npcs.find? fun npc => npc.name == "이비서") ≠ none ∧
    ask_question g50 "이비서" "알리바이를 확인할 수 있나요?" none (Except.ok "네") "t5" =
      (g50, .rejected "최대 질문 횟수(50회)에 도달했습니다. 이제 범인을 지목해주세요.") := by
  refine ⟨rfl, by decide, by decide, by decide, rfl⟩

/-- C1 (amended): an ask action is accepted only while the session is
unfinished and the total number of question records — hint records
included — is strictly below `MAX_QUESTIONS = 50`; once the total count
has reached 50 the next ask is rejected with the session unchanged; below
the cap an ask to a known NPC is accepted and appends one record; and an
accepted hint also grows the capped record count by one (hint records do
consume ask capacity). -/
theorem ask_question_capacity :
    (∀ (g : Game) (npc_name question : String) (evalRes : Option EvalParsed)
        (npcRes : Except Unit String) (ts : String) (a : String) (s : Int)
        (r : String) (t : Nat),
        (ask_question g npc_name question evalRes npcRes ts).2 =
          .answered a s r t →
        g.is_finished = false ∧ g.questions.length < MAX_QUESTIONS) ∧
    (∀ (g : Game) (npc_name question : String) (evalRes : Option EvalParsed)
        (npcRes : Except Unit String) (ts : String),
        g.is_finished = false → MAX_QUESTIONS ≤ g.questions.length →
        ask_question g npc_name question evalRes npcRes ts =
          (g, .rejected "최대 질문 횟수(50회)에 도달했습니다. 이제 범인을 지목해주세요.")) ∧
    (∀ (g : Game) (npc_name question : String) (evalRes : Option EvalParsed)
        (npcRes : Except Unit String) (ts : String) (i : NPC),
        g.is_finished = false → g.questions.length < MAX_QUESTIONS →
        g.npcs.find? (fun npc => npc.name == npc_name) = some i →
        ∃ a s r, (ask_question g npc_name question evalRes npcRes ts).2 =
          .answered a s r (g.questions.length + 1)) ∧
    (∀ (g : Game) (t ts : String), g.hints_used < MAX_HINTS →
        (get_hint g (Except.ok t) ts).1.questions.length =
          g.questions.length + 1) := by
  refine ⟨?_, ?_, ?_, ?_⟩
  · intro g npc_name question evalRes npcRes ts a s r t h
    unfold ask_question at h
    split_ifs at h with h1 h2
    exact ⟨by simpa using h1, by omega⟩
  · intro g npc_name question evalRes npcRes ts h1 h2
    unfold ask_question
    simp [h1, h2]
  · intro g npc_name question evalRes npcRes ts i h1 h2 hf
    unfold ask_question
    rw [if_neg (by simp [h1]), if_neg (by omega), hf]
    refine ⟨generate_npc_response npcRes, (evaluate_question_quality evalRes).1,
      (evaluate_question_quality evalRes).2, ?_⟩
    simp
  · intro g t ts h
    unfold get_hint
    rw [if_neg (by omega)]
    simp

/-- Witness for C1: `ask_question_capacity` applied to the concrete session
`g50` (50 records in total) for the rejection clause, and to `g2` for the
hint-grows-the-count clause. -/
theorem ask_question_capacity_witness :
    ask_question g50 "박자녀" "어디에 있었나요?" none (Except.ok "방에요") "t6" =
      (g50, .rejected "최대 질문 횟수(50회)에 도달했습니다. 이제 범인을 지목해주세요.") ∧
    (get_hint g2 (Except.ok "힌트") "t7").1.questions.length =
      g2.questions.length + 1 :=
  ⟨ask_question_capacity.2.1 g50 "박자녀" "어디에 있었나요?" none (Except.ok "방에요")
      "t6" rfl (by decide),
   ask_question_capacity.2.2.2 g2 "힌트" "t7" (by decide)⟩

/-- C2: on a correct accusation the average quality passed to the scoring
function is the arithmetic mean of `quality_score` over all question
records, hint records (fixed score 0) included; a session with one real
question scored 80 and one hint yields `avg_quality = 40`. -/
theorem accuse_average_includes_hints :
    (∀ (g : Game) (now : String), g.is_finished = false →
        g.questions.length ≠ 0 →
        (accuse_culprit g g.culprit now).2 =
          .correct (calculate_final_score g.questions.length
            (((g.questions.map fun q => (q.quality_score : ℚ)).sum) /
              (g.questions.length : ℚ)))) ∧
    avg_quality_of [q80, hint_rec] = 40 ∧
    (accuse_culprit g2 g2.culprit "t3").2 =
      .correct (calculate_final_score 2 40) ∧
    (calculate_final_score 2 40).avg_quality = 40 := by
  have havg : avg_quality_of [q80, hint_rec] = 40 := by
    norm_num [avg_quality_of, q80, hint_rec]
  have hgen : ∀ (g : Game) (now : String), g.is_finished = false →
      g.questions.length ≠ 0 →
      (accuse_culprit g g.culprit now).2 =
        .correct (calculate_final_score g.questions.length
          (((g.questions.map fun q => (q.quality_score : ℚ)).sum) /
            (g.questions.length : ℚ))) := by
    intro g now h1 h2
    unfold accuse_culprit
    rw [if_neg (by simp [h1]), if_pos (by simp), if_neg h2]
    rfl
  refine ⟨hgen, havg, ?_, ?_⟩
  · have h2' := hgen g2 "t3" rfl (by decide)
    rw [h2']
    have hsum : ((g2.questions.map fun q => (q.quality_score : ℚ)).sum /
        (g2.questions.length : ℚ)) = 40 := by
      norm_num [g2, initial_game, q80, hint_rec]
    rw [hsum]
    rfl
  · norm_num [calculate_final_score, round1]

/-- Witness for C2: `accuse_average_includes_hints` applied to the concrete
session `g2` holding one question scored 80 and one hint record. -/
theorem accuse_average_includes_hints_witness :
    (accuse_culprit g2 g2.culprit "t4").2 =
      .correct (calculate_final_score g2.questions.length
        (((g2.questions.map fun q => (q.quality_score : ℚ)).sum) /
          (g2.questions.length : ℚ))) :=
  accuse_average_includes_hints.1 g2 "t4" rfl (by decide)

/-- C5: a hint request is accepted exactly while `hints_used < MAX_HINTS`
(= 3) — with no check of the finished flag — and each accepted hint appends
one `SYSTEM` record with `quality_score = 0` and increments `hints_used`
by one; `hints_used ≤ 3` holds in every reachable session. -/
theorem get_hint_gating_spec :
    (∀ (g : Game) (gen : Except Unit String) (ts : String),
        MAX_HINTS ≤ g.hints_used →
        get_hint g gen ts =
          (g, .rejected "최대 힌트 횟수(3회)에 도달했습니다. 더 이상 힌트를 받을 수 없습니다.")) ∧
    (∀ (g : Game) (t ts : String), g.hints_used < MAX_HINTS →
        (get_hint g (Except.ok t) ts).1.questions =
          g.questions ++
            [{ npc_name := "SYSTEM", question := "[힌트 요청]", answer := t.trim,
               quality_score := 0, reasoning := "힌트 사용", timestamp := ts }] ∧
        (get_hint g (Except.ok t) ts).1.hints_used = g.hints_used + 1 ∧
        (get_hint g (Except.ok t) ts).2 =
          .provided t.trim (MAX_HINTS - (g.hints_used + 1))) ∧
    (∀ g : Game, Reachable g → g.hints_used ≤ MAX_HINTS) := by
  refine ⟨?_, ?_, fun g r => reachable_hints_le r⟩
  · intro g gen ts h
    unfold get_hint
    rw [if_pos h]
  · intro g t ts h
    unfold get_hint
    rw [if_neg (by omega)]
    exact ⟨rfl, rfl, rfl⟩

/-- Witness for C5: `get_hint_gating_spec` applied to the concrete finished
session `g_done` (hint accepted although the game is over) and to the
exhausted session `g50` (hint rejected at `hints_used = 3`). -/
theorem get_hint_gating_spec_witness :
    g_done.is_finished = true ∧
    (get_hint g_done (Except.ok "서재를 보세요") "t8").1.hints_used = 1 ∧
    get_hint g50 (Except.ok "힌트") "t8" =
      (g50, .rejected "최대 힌트 횟수(3회)에 도달했습니다. 더 이상 힌트를 받을 수 없습니다.") :=
  ⟨rfl,
   (get_hint_gating_spec.2.1 g_done "서재를 보세요" "t8" (by decide)).2.1,
   get_hint_gating_spec.1 g50 (Except.ok "힌트") "t8" (by decide)⟩

/-- C8: `generate_scenario` always returns a scenario satisfying the
culprit-in-roster invariant; when all of the up-to-3 attempts fail
(collaborator exception, malformed JSON, or unrepairable parse) it returns
the hardcoded `DEFAULT_SCENARIO`; a parsed scenario whose culprit is not
among its NPC names is repaired by substituting the first NPC's name; and
the fallback itself satisfies the invariant. -/
theorem generate_scenario_fallback_and_roster :
    (∀ attempts : List (Option Scenario),
        culprit_ok (generate_scenario attempts)) ∧
    (∀ attempts : List (Option Scenario),
        ((attempts.take 3).all fun a => (scenario_attempt a).isNone) →
        generate_scenario attempts = DEFAULT_SCENARIO) ∧
    (∀ (s : Scenario) (rest : List (Option Scenario)) (npc : NPC)
        (tl : List NPC),
        s.npcs = npc :: tl → ¬ culprit_ok s →
        generate_scenario (some s :: rest) = { s with culprit := npc.name }) ∧
    culprit_ok DEFAULT_SCENARIO := by
  refine ⟨fun attempts => generate_scenario_from_ok _,
    generate_scenario_all_fail, ?_, default_scenario_culprit_ok⟩
  intro s rest npc tl hnpcs hnot
  have hr : scenario_attempt (some s) = some { s with culprit := npc.name } := by
    show repair_culprit s = _
    unfold repair_culprit
    unfold culprit_ok at hnot
    rw [if_neg hnot, hnpcs]
    simp
  show generate_scenario_from (some s :: rest.take 2) = _
  unfold generate_scenario_from
  rw [hr]

/-- Witness for C8: `generate_scenario_fallback_and_roster` applied to
three failing attempts (fallback) and to a single parsed scenario with an
out-of-roster culprit (repair to the first NPC's name). -/
theorem generate_scenario_fallback_and_roster_witness :
    generate_scenario [none, none, none] = DEFAULT_SCENARIO ∧
    generate_scenario [some bad_scenario] =
      { bad_scenario with culprit := "이비서" } :=
  ⟨generate_scenario_fallback_and_roster.2.1 [none, none, none] (by decide),
   generate_scenario_fallback_and_roster.2.2.1 bad_scenario [] _ _ rfl
     (by decide)⟩

/-- C10: a hint whose text generation fails mutates nothing — the
generation call precedes every mutation, so the session's `questions` and
`hints_used` are unchanged and no record is produced — whereas the other
collaborator call sites (scenario generation, question evaluation, NPC
responses) substitute fixed fallback values on failure. -/
theorem get_hint_failure_atomic :
    (∀ (g : Game) (ts : String), (get_hint g (Except.error ()) ts).1 = g) ∧
    (∀ (g : Game) (ts : String), g.hints_used < MAX_HINTS →
        (get_hint g (Except.error ()) ts).2 = .failed) ∧
    (∀ (g : Game) (ts h : String) (r : Nat),
        (get_hint g (Except.error ()) ts).2 ≠ .provided h r) ∧
    generate_npc_response (Except.error ()) =
      "죄송합니다. 지금은 대답하기 어렵습니다." ∧
    evaluate_question_quality none = (50, "평가 중 오류 발생") ∧
    generate_scenario [none, none, none] = DEFAULT_SCENARIO := by
  refine ⟨?_, ?_, ?_, rfl, rfl, generate_scenario_all_fail _ (by decide)⟩
  · intro g ts
    unfold get_hint
    split_ifs <;> rfl
  · intro g ts h
    unfold get_hint
    rw [if_neg (by omega)]
  · intro g ts h r
    unfold get_hint
    split_ifs <;> simp

/-- Witness for C10: `get_hint_failure_atomic` applied to the concrete
session `g2` (1 hint used, capacity remaining) with a failing generation
call. -/
theorem get_hint_failure_atomic_witness :
    (get_hint g2 (Except.error ()) "t9").1 = g2 ∧
    (get_hint g2 (Except.error ()) "t9").2 = .failed :=
  ⟨get_hint_failure_atomic.1 g2 "t9",
   get_hint_failure_atomic.2.1 g2 "t9" (by decide)⟩

end CodeOfTruth
